import Mathlib

/-
Verification development for the veriform decode path:
the bounded pushdown decoder (src/rust/src/decoder.rs) and the
verihash sequence hasher state machine
(src/rust/src/decoder/sequence/hasher.rs).

Embedding conventions:
- Rust usize/u64 values are modelled as Nat; i64 values as Int.
  Arithmetic that can overflow in Rust is modelled with explicit
  wrapping modulo 2^64 (the release-build semantics of usize
  subtraction); Rust debug builds panic on the same underflow.
- Unconditional panics in the source (an unwrap of None, an
  unreachable assertion) are modelled as a distinct result
  constructor named panic, separate from ordinary error returns.
- Fallible Rust functions returning Result are modelled with Except
  or with explicit result inductives that also carry the updated
  state (Rust mutates through references; the embedding passes
  state explicitly).
-/

set_option autoImplicit false

/-- Modelled from the spec: a Tag is a non-negative field identifier
(field.rs is not under src/; only its use sites are). -/
abbrev Tag := Nat

/-- Modelled from the spec: the closed set of wire types
{UInt64, SInt64, Bytes, String, Message, Sequence}
(field.rs is not under src/; only its use sites are). -/
inductive WireType where
  | UInt64
  | SInt64
  | Bytes
  | String
  | Message
  | Sequence
  deriving DecidableEq, Repr

/-- Modelled from the spec: the error kinds of section 7
(error.rs is not under src/). The constructor Failed is the
"AlreadyFailed" condition (the source writes Kind::Failed);
the decoder side's Error::NestingDepth is the same enumeration. -/
inductive Kind where
  | NestingDepth
  | HeaderMismatch
  | TruncatedInput
  | InvalidVarint
  | InvalidText
  | SequenceLength
  | Hashing
  | Failed
  deriving DecidableEq, Repr

/-- Modelled from the spec: the decode-event vocabulary
(event.rs is not under src/): Header, LengthDelimiter{wire_type, length},
UInt64(value), SInt64(value), ValueChunk{wire_type, bytes, remaining}. -/
inductive Event where
  | Header (tag : Tag) (wire_type : WireType)
  | LengthDelimiter (wire_type : WireType) (length : Nat)
  | UInt64 (value : Nat)
  | SInt64 (value : Int)
  | ValueChunk (wire_type : WireType) (bytes : List Nat) (remaining : Nat)
  deriving DecidableEq, Repr

/-- Modelled from the spec: one commit operation on the underlying
hash accumulator (verihash::Hasher is not under src/). The hasher.rs
code drives it through exactly three operations, recorded here
symbolically so that the digest is the transcript of commits. -/
inductive VOp where
  | dynamically_sized_value (wire_type : WireType) (length : Nat)
  | fixed_size_value (wire_type : WireType) (bytes : List Nat)
  | input (bytes : List Nat)
  deriving DecidableEq, Repr

/-- Modelled from the spec: the underlying hash accumulator, as the
transcript of commit operations, most recent first. Two equal
transcripts give equal digests, and the commit operations are
injectively recorded, so transcript equality is digest equality. -/
abbrev VHasher := List VOp

/-- A fresh accumulator (verihash::Hasher::new). -/
def VHasher.new : VHasher := []

/-- One word of machine-integer bookkeeping: usize is 64-bit. -/
def USIZE_MOD : Nat := 2 ^ 64

/-- Wrapping usize subtraction: the semantics of the source's
remaining - bytes.len() in a release build (debug builds panic on
underflow). For a >= b with both below 2^64 this is plain a - b. -/
def usize_sub (a b : Nat) : Nat :=
  (a + (USIZE_MOD - b % USIZE_MOD)) % USIZE_MOD

/-- Little-endian byte representation of a u64 value
(u64::to_le_bytes in the source). -/
def u64_to_le_bytes (v : Nat) : List Nat :=
  (List.range 8).map (fun i => v / 256 ^ i % 256)

/-- Little-endian two's-complement byte representation of an i64 value
(i64::to_le_bytes in the source). -/
def i64_to_le_bytes (v : Int) : List Nat :=
  u64_to_le_bytes ((v % (2 ^ 64 : Int)).toNat)

/-- hasher.rs State: Initial, Bytes{remaining}, String{remaining},
Message{remaining}. -/
inductive State where
  | Initial
  | Bytes (remaining : Nat)
  | String (remaining : Nat)
  | Message (remaining : Nat)
  deriving DecidableEq, Repr

/-- Result of State::transition: either the successor state together
with the updated accumulator, an error kind (error paths in the
source never touch the accumulator before returning), or a panic
(the unreachable assertion in handle_length_delimiter). -/
inductive TResult where
  | ok (state : State) (verihash : VHasher)
  | err (kind : Kind)
  | panic
  deriving DecidableEq, Repr

/-- hasher.rs State::handle_length_delimiter (lines 110-129).
The wildcard arm of the source's match is an unreachable assertion,
modelled as panic. -/
def State.handle_length_delimiter (self : State) (wire_type : WireType)
    (length : Nat) (verihash : VHasher) : TResult :=
  if self ≠ State.Initial then TResult.err Kind.Hashing
  else
    match wire_type with
    | WireType.Bytes =>
        TResult.ok (State.Bytes length)
          (VOp.dynamically_sized_value wire_type length :: verihash)
    | WireType.String =>
        TResult.ok (State.String length)
          (VOp.dynamically_sized_value wire_type length :: verihash)
    | WireType.Message =>
        TResult.ok (State.Message length)
          (VOp.dynamically_sized_value wire_type length :: verihash)
    | _ => TResult.panic

/-- hasher.rs State::handle_fixed_sized_value (lines 132-151).
The source commits the value's little-endian bytes and returns to
Initial; the wildcard arm is an unreachable assertion (its callers
only pass UInt64/SInt64 events). -/
def State.handle_fixed_sized_value (self : State) (value : Event)
    (verihash : VHasher) : TResult :=
  if self ≠ State.Initial then TResult.err Kind.Hashing
  else
    match value with
    | Event.UInt64 v =>
        TResult.ok State.Initial
          (VOp.fixed_size_value WireType.UInt64 (u64_to_le_bytes v) :: verihash)
    | Event.SInt64 v =>
        TResult.ok State.Initial
          (VOp.fixed_size_value WireType.SInt64 (i64_to_le_bytes v) :: verihash)
    | _ => TResult.panic

/-- hasher.rs State::handle_value_chunk (lines 154-210).
The remaining-counter check is the source's
remaining - bytes.len() != new_remaining, an unchecked usize
subtraction, modelled with wrapping semantics (usize_sub).
In the Message arm the source returns early with Ok(..) and so
skips the verihash.input(bytes) call at the bottom of the function:
message chunk bytes are never absorbed into the accumulator. -/
def State.handle_value_chunk (self : State) (wire_type : WireType)
    (bytes : List Nat) (new_remaining : Nat) (verihash : VHasher) : TResult :=
  match self with
  | State.Bytes remaining =>
      if wire_type ≠ WireType.Bytes ∨
          usize_sub remaining bytes.length ≠ new_remaining then
        TResult.err Kind.Hashing
      else if new_remaining = 0 then
        TResult.ok State.Initial (VOp.input bytes :: verihash)
      else
        TResult.ok (State.Bytes new_remaining) (VOp.input bytes :: verihash)
  | State.String remaining =>
      if wire_type ≠ WireType.String ∨
          usize_sub remaining bytes.length ≠ new_remaining then
        TResult.err Kind.Hashing
      else if new_remaining = 0 then
        TResult.ok State.Initial (VOp.input bytes :: verihash)
      else
        TResult.ok (State.String new_remaining) (VOp.input bytes :: verihash)
  | State.Message remaining =>
      if wire_type ≠ WireType.Message ∨
          usize_sub remaining bytes.length ≠ new_remaining then
        TResult.err Kind.Hashing
      else if new_remaining = 0 then
        TResult.ok State.Initial verihash
      else
        TResult.ok (State.Message new_remaining) verihash
  | State.Initial => TResult.err Kind.Hashing

/-- hasher.rs State::transition (lines 88-107): dispatch on the event;
Header and any other event kind is rejected with Kind::Hashing. -/
def State.transition (self : State) (event : Event) (verihash : VHasher) :
    TResult :=
  match event with
  | Event.LengthDelimiter wire_type length =>
      self.handle_length_delimiter wire_type length verihash
  | Event.UInt64 _ => self.handle_fixed_sized_value event verihash
  | Event.SInt64 _ => self.handle_fixed_sized_value event verihash
  | Event.ValueChunk wire_type bytes remaining =>
      self.handle_value_chunk wire_type bytes remaining verihash
  | _ => TResult.err Kind.Hashing

/-- hasher.rs Hasher: the verihash accumulator plus the current state,
which is None after an error occurred. -/
structure Hasher where
  verihash : VHasher
  state : Option State
  deriving DecidableEq, Repr

/-- Hasher::new: fresh accumulator, state Some(Initial). -/
def Hasher.new : Hasher := ⟨VHasher.new, some State.Initial⟩

/-- Result of Hasher::hash_event, carrying the hasher after the call
(the source mutates self in place). -/
inductive HashResult where
  | ok (hasher : Hasher)
  | err (kind : Kind) (hasher : Hasher)
  | panic
  deriving DecidableEq, Repr

/-- hasher.rs Hasher::hash_event (lines 38-46): take the state token;
if present, run the transition, reinstalling the new state on success
and leaving None installed on error; if absent, return Kind::Failed
with the hasher unchanged. -/
def Hasher.hash_event (self : Hasher) (event : Event) : HashResult :=
  match self.state with
  | some state =>
      match state.transition event self.verihash with
      | TResult.ok new_state vh => HashResult.ok (Hasher.mk vh (some new_state))
      | TResult.err k => HashResult.err k (Hasher.mk self.verihash none)
      | TResult.panic => HashResult.panic
  | none => HashResult.err Kind.Failed self

/-- Feed a list of events through a hasher, recording each call's
result (hence the full state evolution and accumulator transcript);
a panic terminates the run. -/
def Hasher.feed_trace : Hasher → List Event → List HashResult
  | _, [] => []
  | h, e :: es =>
      match h.hash_event e with
      | HashResult.ok h2 => HashResult.ok h2 :: Hasher.feed_trace h2 es
      | HashResult.err k h2 => HashResult.err k h2 :: Hasher.feed_trace h2 es
      | HashResult.panic => [HashResult.panic]

/-- Modelled from the spec: one frame of per-message decoding state
(decoder/message.rs is not under src/). Its internal fields play no
role in the stack-discipline claims, so it is a unit placeholder. -/
inductive MessageDecoder where
  | mk
  deriving DecidableEq, Repr

/-- decoder.rs Decoder: a stack of message decoders. The heapless
vector's capacity bound of 16 lives in Decoder.push; the stack is
modelled with its top at the head of the list (the source pushes and
pops at the tail of the vector). -/
structure Decoder where
  stack : List MessageDecoder
  deriving DecidableEq, Repr

/-- Maximum nesting depth: the U16 capacity of the heapless vector. -/
def STACK_CAPACITY : Nat := 16

/-- decoder.rs Default for Decoder (lines 36-45): an empty stack with
one root frame pushed; Decoder::new delegates to it. -/
def Decoder.new : Decoder := ⟨[MessageDecoder.mk]⟩

/-- decoder.rs Decoder::push (lines 58-62): heapless push succeeds
exactly when the vector is below capacity, and a failed push is
mapped to Error::NestingDepth, leaving the stack unchanged. -/
def Decoder.push (self : Decoder) : Except Kind Decoder :=
  if self.stack.length < STACK_CAPACITY then
    Except.ok ⟨MessageDecoder.mk :: self.stack⟩
  else
    Except.error Kind.NestingDepth

/-- decoder.rs Decoder::pop (lines 68-70): pop().unwrap(); the None
case (empty stack) is a panic, modelled as none; otherwise the top
frame is removed and unit is returned (never an error value). -/
def Decoder.pop (self : Decoder) : Option Decoder :=
  match self.stack with
  | [] => none
  | _ :: rest => some ⟨rest⟩

/-- decoder.rs Decoder::peek (lines 74-76): last_mut().unwrap();
none models the panic on an empty stack. -/
def Decoder.peek (self : Decoder) : Option MessageDecoder :=
  self.stack.head?

/-- decoder.rs Decoder::depth (lines 80-82): the stack length. -/
def Decoder.depth (self : Decoder) : Nat :=
  self.stack.length

/-- Iterate Decoder::push n times, stopping at the first failure. -/
def Decoder.pushN : Decoder → Nat → Except Kind Decoder
  | d, 0 => Except.ok d
  | d, n + 1 =>
      match d.push with
      | Except.error e => Except.error e
      | Except.ok d2 => Decoder.pushN d2 n

/-- A decoder whose stack is at capacity (depth 16). -/
def full_decoder : Decoder := ⟨List.replicate STACK_CAPACITY MessageDecoder.mk⟩

/-- Result of the nested-message decode impl Decode<M> for Decoder:
the decoded value with the decoder and advanced input on success, an
error with the decoder as the call left it, or a panic (peek or pop
on an empty stack). -/
inductive DecodeResult (M : Type) where
  | ok (value : M) (decoder : Decoder) (input : List Nat)
  | err (error : Kind) (decoder : Decoder)
  | panic
  deriving DecidableEq, Repr

/-- decoder.rs impl Decode<M> for Decoder, fn decode (lines 90-102).
The frame-level operations expect_header and decode_message and the
schema-level M::decode live outside src/ and are taken as parameters:
expect_header checks the field header and advances the input;
decode_message extracts the declared-length message byte region,
returning (msg_bytes, rest); m_decode is M::decode, which receives
the whole decoder (it may push and pop) and returns it in both
outcomes. The call sequence mirrors the source exactly: header check,
region extraction, push, inner decode, pop - and on an inner decode
error the early return skips the pop, exactly as the source's
question-mark operator does. -/
def Decoder.decode {M : Type}
    (expect_header : List Nat → Tag → WireType → Except Kind (List Nat))
    (decode_message : List Nat → Except Kind (List Nat × List Nat))
    (m_decode : Decoder → List Nat → Except (Kind × Decoder) (M × Decoder))
    (self : Decoder) (tag : Tag) (input : List Nat) : DecodeResult M :=
  match self.peek with
  | none => DecodeResult.panic
  | some _ =>
      match expect_header input tag WireType.Message with
      | Except.error e => DecodeResult.err e self
      | Except.ok input1 =>
          match decode_message input1 with
          | Except.error e => DecodeResult.err e self
          | Except.ok (msg_bytes, input2) =>
              match self.push with
              | Except.error e => DecodeResult.err e self
              | Except.ok d1 =>
                  match m_decode d1 msg_bytes with
                  | Except.error (e, d2) => DecodeResult.err e d2
                  | Except.ok (m, d2) =>
                      match d2.pop with
                      | none => DecodeResult.panic
                      | some d3 => DecodeResult.ok m d3 input2

/-- Instantiation of the frame-level header check that accepts and
leaves the input unchanged, used to drive the decode sequencing to
the inner M::decode step. -/
def eh_ok : List Nat → Tag → WireType → Except Kind (List Nat) :=
  fun input _ _ => Except.ok input

/-- Instantiation of the message-region extraction that yields the
whole input as the message region. -/
def dm_ok : List Nat → Except Kind (List Nat × List Nat) :=
  fun input => Except.ok (input, [])

/-- Instantiation of an inner M::decode that fails, returning the
decoder exactly as it received it (so it is depth-preserving, the
discipline the spec requires of schema code). -/
def md_fail : Decoder → List Nat → Except (Kind × Decoder) (Unit × Decoder) :=
  fun d _ => Except.error (Kind.TruncatedInput, d)

/-- Claim C1: once the sequence hasher rejects an event with a Hashing
error, it is permanently poisoned: its state token is gone (None), and
every subsequent call to hash_event returns the distinct AlreadyFailed
condition Kind.Failed with the hasher unchanged — never Ok and never
another Hashing error. Because the failed hasher is returned unchanged,
this single-step fact extends to every later event. -/
theorem hash_event_poisoning (h : Hasher) (e : Event) (hp : Hasher)
    (hfail : h.hash_event e = HashResult.err Kind.Hashing hp) :
    hp.state = none ∧
      ∀ e2 : Event, hp.hash_event e2 = HashResult.err Kind.Failed hp := by
  obtain ⟨vh, st0⟩ := h
  obtain ⟨vph, pst⟩ := hp
  have hps : pst = none := by
    cases st0 with
    | none =>
        have hfail2 : HashResult.err Kind.Failed (Hasher.mk vh none) =
            HashResult.err Kind.Hashing (Hasher.mk vph pst) := hfail
        injection hfail2 with hk hhp
        exact Kind.noConfusion hk
    | some st =>
        have hfail2 : (match State.transition st e vh with
            | TResult.ok s vh2 => HashResult.ok (Hasher.mk vh2 (some s))
            | TResult.err k => HashResult.err k (Hasher.mk vh none)
            | TResult.panic => HashResult.panic) =
            HashResult.err Kind.Hashing (Hasher.mk vph pst) := hfail
        cases ht : State.transition st e vh with
        | ok s vh2 => rw [ht] at hfail2; exact HashResult.noConfusion hfail2
        | err k =>
            rw [ht] at hfail2
            injection hfail2 with hk hhp
            injection hhp with hv hs
            exact hs.symm
        | panic => rw [ht] at hfail2; exact HashResult.noConfusion hfail2
  subst hps
  exact ⟨rfl, fun e2 => rfl⟩

/-- Witness for C1: a fresh hasher fed a ValueChunk in Initial rejects
it with Kind.Hashing, and the poisoned hasher then answers Kind.Failed
to a subsequent event, by the poisoning theorem. -/
theorem hash_event_poisoning_witness :
    (Hasher.mk [] none).state = none ∧
      (Hasher.mk [] none).hash_event (Event.UInt64 5) =
        HashResult.err Kind.Failed (Hasher.mk [] none) :=
  ⟨(hash_event_poisoning Hasher.new (Event.ValueChunk WireType.Bytes [] 0)
      (Hasher.mk [] none) rfl).1,
   (hash_event_poisoning Hasher.new (Event.ValueChunk WireType.Bytes [] 0)
      (Hasher.mk [] none) rfl).2 (Event.UInt64 5)⟩

/-- Claim C2 (code_bug evaluation): a nested-message decode whose
header check and region extraction succeed and whose inner M::decode
fails returns the inner error with the pushed frame still on the
stack: starting from a fresh decoder of depth 1, the call fails with
depth 2 — the source's early return on the inner decode error skips
the pop, so the stack is not rebalanced as the claim requires. -/
theorem decode_inner_failure_leaks_frame :
    Decoder.new.depth = 1 ∧
      Decoder.decode eh_ok dm_ok md_fail Decoder.new 1 [5] =
        DecodeResult.err Kind.TruncatedInput
          (Decoder.mk [MessageDecoder.mk, MessageDecoder.mk]) ∧
      (Decoder.mk [MessageDecoder.mk, MessageDecoder.mk]).depth = 2 :=
  ⟨rfl, rfl, rfl⟩

/-- Claim C3 (counterexample): on a freshly created decoder, 16
consecutive calls to push do NOT all succeed — the sequence fails
with NestingDepth, because the root frame already occupies one of the
16 slots. -/
theorem push_sixteen_fails :
    Decoder.new.pushN 16 = Except.error Kind.NestingDepth := rfl

/-- Claim C3 (amended): on a freshly created decoder, 15 consecutive
pushes succeed, reaching depth 16; the 16th push fails with
NestingDepth and the decoder (unchanged by the failed push) still has
depth 16. In general any decoder at depth at least 16 has its push
rejected with NestingDepth, and a successful push never produces a
depth above 16, so depth never exceeds the capacity. -/
theorem push_depth_bound :
    Decoder.new.pushN 15 = Except.ok full_decoder ∧
      full_decoder.depth = 16 ∧
      full_decoder.push = Except.error Kind.NestingDepth ∧
      (∀ d : Decoder, 16 ≤ d.depth → d.push = Except.error Kind.NestingDepth) ∧
      (∀ d d2 : Decoder, d.push = Except.ok d2 → d2.depth ≤ 16) := by
  refine ⟨rfl, rfl, rfl, ?_, ?_⟩
  · intro d hle
    have hnlt : ¬ d.stack.length < STACK_CAPACITY := Nat.not_lt.mpr hle
    unfold Decoder.push
    rw [if_neg hnlt]
  · intro d d2 hpush
    unfold Decoder.push at hpush
    by_cases hlt : d.stack.length < STACK_CAPACITY
    · rw [if_pos hlt] at hpush
      injection hpush with hd
      rw [← hd]
      exact hlt
    · rw [if_neg hlt] at hpush
      exact Except.noConfusion hpush

/-- Witness for C3 (amended): the full decoder is at depth 16 and its
push is rejected with NestingDepth, by the depth-bound theorem. -/
theorem push_depth_bound_witness :
    full_decoder.push = Except.error Kind.NestingDepth :=
  push_depth_bound.2.2.2.1 full_decoder (by decide)

/-- Claim C4 (code_bug evaluation): in state Message{remaining = 2}, a
matching ValueChunk of two bytes with declared new remaining 0 is
accepted and returns the state to Initial, but the accumulator
transcript is unchanged — the chunk's bytes are NOT absorbed into the
digest, because the source's Message arm returns early and skips
verihash.input(bytes). -/
theorem message_chunk_not_absorbed :
    State.transition (State.Message 2)
        (Event.ValueChunk WireType.Message [9, 9] 0) [] =
      TResult.ok State.Initial [] := by decide

/-- Claim C5 (code_bug evaluation): a LengthDelimiter whose wire type
is UInt64, arriving while the hasher is in the Initial state, drives
handle_length_delimiter into its unreachable assertion: the call
panics instead of returning an error. -/
theorem length_delimiter_wrong_wire_type_panics :
    State.transition State.Initial
        (Event.LengthDelimiter WireType.UInt64 3) [] = TResult.panic := rfl

/-- Claim C6 (counterexample): calling pop on a decoder whose stack
holds only the root frame is NOT a panic — it succeeds, removing the
root frame and leaving an empty stack. -/
theorem pop_root_no_panic :
    Decoder.new.depth = 1 ∧ Decoder.new.pop = some (Decoder.mk []) :=
  ⟨rfl, rfl⟩

/-- Claim C6 (amended): pop never returns an error value (its result
type has no error case); popping an empty stack is the fatal panic
(the unwrap of None); popping any nonempty stack — including a stack
holding only the root frame — succeeds and removes the top frame, so
the first pop of a fresh decoder leaves an empty stack. -/
theorem pop_underflow_panics :
    (∀ d : Decoder, d.stack = [] → d.pop = none) ∧
      (∀ (d : Decoder) (f : MessageDecoder) (fs : List MessageDecoder),
        d.stack = f :: fs → d.pop = some (Decoder.mk fs)) ∧
      Decoder.new.pop = some (Decoder.mk []) := by
  refine ⟨?_, ?_, rfl⟩
  · intro d hd
    obtain ⟨s⟩ := d
    have hd2 : s = [] := hd
    subst hd2
    rfl
  · intro d f fs hd
    obtain ⟨s⟩ := d
    have hd2 : s = f :: fs := hd
    subst hd2
    rfl

/-- Witness for C6 (amended): popping the empty-stack decoder is the
panic case, by the pop theorem applied to the concrete decoder. -/
theorem pop_underflow_panics_witness : (Decoder.mk []).pop = none :=
  pop_underflow_panics.1 (Decoder.mk []) rfl

/-- Claim C7: a UInt64 or SInt64 event in the Initial state commits
the value's little-endian bytes to the digest atomically as a single
fixed-size commit and leaves the state Initial; in any non-Initial
state the same events are rejected with a Hashing error (poisoning
the hasher). -/
theorem hash_event_fixed_size (h : Hasher) (st : State) (u : Nat) (i : Int)
    (hst : h.state = some st) :
    (st = State.Initial →
        h.hash_event (Event.UInt64 u) = HashResult.ok
          (Hasher.mk
            (VOp.fixed_size_value WireType.UInt64 (u64_to_le_bytes u)
              :: h.verihash) (some State.Initial)) ∧
        h.hash_event (Event.SInt64 i) = HashResult.ok
          (Hasher.mk
            (VOp.fixed_size_value WireType.SInt64 (i64_to_le_bytes i)
              :: h.verihash) (some State.Initial))) ∧
      (st ≠ State.Initial →
        h.hash_event (Event.UInt64 u) =
          HashResult.err Kind.Hashing (Hasher.mk h.verihash none) ∧
        h.hash_event (Event.SInt64 i) =
          HashResult.err Kind.Hashing (Hasher.mk h.verihash none)) := by
  obtain ⟨vh, st0⟩ := h
  have hst2 : st0 = some st := hst
  subst hst2
  constructor
  · intro hi
    subst hi
    exact ⟨rfl, rfl⟩
  · intro hne
    cases st with
    | Initial => exact absurd rfl hne
    | Bytes r => exact ⟨rfl, rfl⟩
    | String r => exact ⟨rfl, rfl⟩
    | Message r => exact ⟨rfl, rfl⟩

/-- Witness for C7: a fresh hasher commits 42 and -42 as little-endian
fixed-size values and stays in Initial, by the fixed-size theorem at
the fresh hasher. -/
theorem hash_event_fixed_size_witness :
    Hasher.new.hash_event (Event.UInt64 42) = HashResult.ok
      (Hasher.mk [VOp.fixed_size_value WireType.UInt64 (u64_to_le_bytes 42)]
        (some State.Initial)) ∧
    Hasher.new.hash_event (Event.SInt64 (-42)) = HashResult.ok
      (Hasher.mk [VOp.fixed_size_value WireType.SInt64 (i64_to_le_bytes (-42))]
        (some State.Initial)) :=
  (hash_event_fixed_size Hasher.new State.Initial 42 (-42) rfl).1 rfl

/-- Claim C8: any ValueChunk event arriving while the hasher state is
Initial (no preceding LengthDelimiter) is rejected with a Hashing
error, and the hasher is poisoned: its state becomes None, the
permanent failure sentinel. -/
theorem hash_event_chunk_in_initial (h : Hasher) (wt : WireType)
    (bs : List Nat) (rem : Nat) (hst : h.state = some State.Initial) :
    h.hash_event (Event.ValueChunk wt bs rem) =
      HashResult.err Kind.Hashing (Hasher.mk h.verihash none) := by
  obtain ⟨vh, st0⟩ := h
  have hst2 : st0 = some State.Initial := hst
  subst hst2
  rfl

/-- Witness for C8: a fresh hasher fed a String chunk is rejected with
Kind.Hashing and left with state None, by the chunk-in-Initial theorem
at the fresh hasher. -/
theorem hash_event_chunk_in_initial_witness :
    Hasher.new.hash_event (Event.ValueChunk WireType.String [1, 2] 7) =
      HashResult.err Kind.Hashing (Hasher.mk [] none) :=
  hash_event_chunk_in_initial Hasher.new WireType.String [1, 2] 7 rfl

/-- Claim C9: the sequence hasher is deterministic — two freshly
created hashers fed the same event list produce identical traces of
results, hence identical state evolutions and identical final
accumulator transcripts (digests). -/
theorem hasher_deterministic (h1 h2 : Hasher) (evs : List Event)
    (e1 : h1 = Hasher.new) (e2 : h2 = Hasher.new) :
    Hasher.feed_trace h1 evs = Hasher.feed_trace h2 evs := by
  subst e1
  subst e2
  rfl

/-- Witness for C9: two fresh hashers fed the same two-event list
yield the same trace, by the determinism theorem. -/
theorem hasher_deterministic_witness :
    Hasher.feed_trace Hasher.new
        [Event.UInt64 7, Event.ValueChunk WireType.Bytes [1] 0] =
      Hasher.feed_trace Hasher.new
        [Event.UInt64 7, Event.ValueChunk WireType.Bytes [1] 0] :=
  hasher_deterministic Hasher.new Hasher.new
    [Event.UInt64 7, Event.ValueChunk WireType.Bytes [1] 0] rfl rfl

/-- Claim C10: a freshly constructed decoder already contains the root
frame: its depth is 1, and from the initial state exactly 15 further
pushes succeed (reaching the capacity of 16, with the root frame
occupying one slot) before a 16th push is rejected. -/
theorem new_decoder_root_frame :
    Decoder.new.depth = 1 ∧
      Decoder.new.pushN 15 = Except.ok full_decoder ∧
      full_decoder.push = Except.error Kind.NestingDepth :=
  ⟨rfl, rfl, rfl⟩
